import Mathlib

/-!
Shallow embedding of the MQTT module of the AiLight firmware
(`src/_mqtt.ino`).  Pure data is modelled directly; the side effects of
the module (calls into the transport library, invocations of registered
callbacks, EEPROM persistence requests, arming of the reconnect timer)
are modelled as explicit traces and counters inside an `MqttState`
record that every handler transforms.
-/

namespace AiLight

/-- Build-time constants of the firmware.  Modelled from the spec: the
constants `MQTT_QOS_LEVEL`, `MQTT_RETAIN`, `MQTT_KEEPALIVE`,
`RECONNECT_TIME` and `MQTT_STATUS_OFFLINE` are defined in a
configuration header of the repository that is not under `src/`; the
spec describes them as process-wide constants fixed at build time. -/
structure Consts where
  mqtt_qos_level : Nat
  mqtt_retain : Bool
  mqtt_keepalive : Nat
  reconnect_time : Nat
  mqtt_status_offline : String

/-- The configuration record `cfg` used by the module.  Field names
follow the source; `mqtt_ha_disc_pfx` stands for the source field
`mqtt_ha_disc_prefix` (the Home Assistant discovery topic prefix). -/
structure Config where
  hostname : String
  mqtt_server : String
  mqtt_port : Nat
  mqtt_user : String
  mqtt_password : String
  mqtt_state_topic : String
  mqtt_command_topic : String
  mqtt_lwt_topic : String
  mqtt_ha_use_discovery : Bool
  mqtt_ha_disc_pfx : String
  mqtt_ha_is_discovered : Bool

/-- The three event kinds delivered to registered callbacks.  Modelled
from the spec: the numeric constants `MQTT_EVENT_CONNECT`,
`MQTT_EVENT_DISCONNECT` and `MQTT_EVENT_MESSAGE` live in a header not
under `src/`; the spec fixes exactly these three kinds. -/
inductive MqttEvent where
  | connect
  | disconnect
  | message
deriving DecidableEq

/-- One observable call into the transport library (the `mqtt` client
object of the source). -/
inductive TransportCall where
  | connect
  | publish (topic : String) (qos : Nat) (retain : Bool) (message : String)
  | subscribe (topic : String) (qos : Nat)
  | unsubscribe (topic : String)

/-- One recorded invocation of a registered callback: which callback
(identified by the value stored in the registry), which event kind, and
the `topic` / `message` arguments (`none` models a NULL pointer; the
message argument carries the raw bytes of the converted buffer). -/
structure Invocation where
  callback : Nat
  event : MqttEvent
  topic : Option String
  message : Option (List Nat)
deriving DecidableEq

/-- The observable state of the module: the transport's connection
status (`mqtt.connected()`), the configuration, the callback registry
`_mqtt_callbacks` (in registration order), and the traces of the
module's side effects. -/
structure MqttState where
  connected : Bool
  cfg : Config
  callbacks : List Nat
  transportCalls : List TransportCall
  invocations : List Invocation
  eepromWrites : Nat
  pendingReconnects : Nat

/-- Successor of the `uint8_t` loop counter: increment modulo 2^8. -/
def u8Succ (i : Nat) : Nat := (i + 1) % 256

/-- The sequence of index values at which the body of the dispatch loop
`for (uint8_t i = 0; i < n; i++)` runs, starting from counter value `i`,
executing at most `fuel` iterations (the loop itself has no bound; the
fuel only truncates the model's view of it). -/
def u8LoopIndices : Nat → Nat → Nat → List Nat
  | 0, _, _ => []
  | fuel + 1, i, n => if i < n then i :: u8LoopIndices fuel (u8Succ i) n else []

/-- Whether the dispatch loop reaches its exit test successfully (the
condition `i < n` becomes false) within `fuel` iterations starting from
counter value `i`. -/
def u8LoopExits : Nat → Nat → Nat → Bool
  | 0, _, _ => false
  | fuel + 1, i, n => if i < n then u8LoopExits fuel (u8Succ i) n else true

/-- Index values visited by a dispatch loop over a registry of size `n`,
given fuel `n` (enough to reach the exit test whenever `n ≤ 255`). -/
def dispatchIndices (n : Nat) : List Nat := u8LoopIndices n 0 n

/-- The invocation trace produced by a dispatch loop over registry `cbs`
when at most `fuel` iterations of the `uint8_t`-indexed loop run. -/
def dispatchEventFueled (fuel : Nat) (cbs : List Nat) (ev : MqttEvent)
    (topic : Option String) (msg : Option (List Nat)) : List Invocation :=
  (u8LoopIndices fuel 0 cbs.length).filterMap
    (fun i => (cbs[i]?).map
      (fun c => { callback := c, event := ev, topic := topic, message := msg }))

/-- The invocation trace of one dispatch loop, with fuel equal to the
registry size (exactly the iterations that run when the loop exits). -/
def dispatchEvent (cbs : List Nat) (ev : MqttEvent)
    (topic : Option String) (msg : Option (List Nat)) : List Invocation :=
  dispatchEventFueled cbs.length cbs ev topic msg

/-- `mqttPublish` of the source: silently return when not connected;
otherwise publish only when both topic and message are non-empty
(`os_strlen(·) > 0`), at the build-time QoS level and retain flag. -/
def mqttPublish (C : Consts) (s : MqttState) (topic message : String) : MqttState :=
  if !s.connected then s
  else if 0 < topic.length ∧ 0 < message.length then
    { s with transportCalls :=
        s.transportCalls ++ [TransportCall.publish topic C.mqtt_qos_level C.mqtt_retain message] }
  else s

/-- `mqttSubscribe` of the source: silently return when not connected;
otherwise subscribe only when the topic is non-empty. -/
def mqttSubscribe (s : MqttState) (topic : String) (qos : Nat) : MqttState :=
  if !s.connected then s
  else if 0 < topic.length then
    { s with transportCalls := s.transportCalls ++ [TransportCall.subscribe topic qos] }
  else s

/-- `mqttUnsubscribe` of the source: silently return when not connected;
otherwise unsubscribe only when the topic is non-empty. -/
def mqttUnsubscribe (s : MqttState) (topic : String) : MqttState :=
  if !s.connected then s
  else if 0 < topic.length then
    { s with transportCalls := s.transportCalls ++ [TransportCall.unsubscribe topic] }
  else s

/-- `mqttRegister` of the source: `_mqtt_callbacks.push_back(callback)`. -/
def mqttRegister (s : MqttState) (cb : Nat) : MqttState :=
  { s with callbacks := s.callbacks ++ [cb] }

/-- The Home Assistant discovery topic built by `onMQTTConnect` with
`sprintf_P("%s/light/%s/config", cfg.mqtt_ha_disc_prefix, cfg.hostname)`. -/
def discoveryTopic (cfg : Config) : String :=
  cfg.mqtt_ha_disc_pfx ++ "/light/" ++ cfg.hostname ++ "/config"

/-- The discovery JSON document serialized by `printTo` from the
`JsonObject` built in `onMQTTConnect`, with its eight fields in
assignment order (compact ArduinoJson encoding; escaping of special
characters inside the configured strings is not modelled). -/
def discoveryPayload (cfg : Config) : String :=
  "\x7b\"name\":\"" ++ cfg.hostname ++
  "\",\"platform\":\"mqtt_json\",\"state_topic\":\"" ++ cfg.mqtt_state_topic ++
  "\",\"command_topic\":\"" ++ cfg.mqtt_command_topic ++
  "\",\"brightness\":true,\"rgb\":true,\"white_value\":true,\"color_temp\":true\x7d"

/-- `onMQTTConnect` of the source: dispatch the CONNECT event to every
registered callback, then, when discovery is enabled and the announced
flag is unset, publish the discovery document to the discovery topic,
set the flag and request `EEPROM_write(cfg)`. -/
def onMQTTConnect (C : Consts) (s : MqttState) (sessionPresent : Bool) : MqttState :=
  let s1 : MqttState :=
    { s with invocations :=
        s.invocations ++ dispatchEvent s.callbacks MqttEvent.connect none none }
  if s1.cfg.mqtt_ha_use_discovery && !s1.cfg.mqtt_ha_is_discovered then
    let s2 := mqttPublish C s1 (discoveryTopic s1.cfg) (discoveryPayload s1.cfg)
    let s3 : MqttState := { s2 with cfg := { s2.cfg with mqtt_ha_is_discovered := true } }
    { s3 with eepromWrites := s3.eepromWrites + 1 }
  else s1

/-- Arming of the one-shot reconnect timer.  Modelled from the spec: the
`Ticker` object `mqttReconnectTimer` is an external collaborator; its
`once` call re-arms the single timer, cancelling and replacing any
previously pending schedule, so afterwards exactly one attempt is
pending regardless of how many were pending before. -/
def tickerOnce (_delay : Nat) (_pending : Nat) : Nat := 1

/-- `onMQTTDisconnect` of the source: dispatch the DISCONNECT event to
every registered callback (the reason code is logged only), then arm the
reconnect timer with `mqttReconnectTimer.once(RECONNECT_TIME, mqttConnect)`. -/
def onMQTTDisconnect (C : Consts) (s : MqttState) (reason : Nat) : MqttState :=
  let s1 : MqttState :=
    { s with invocations :=
        s.invocations ++ dispatchEvent s.callbacks MqttEvent.disconnect none none }
  { s1 with pendingReconnects := tickerOnce C.reconnect_time s1.pendingReconnects }

/-- The `message` buffer built by `onMQTTMessage`: `os_memcpy` of the
first `length` payload bytes followed by a terminating `0` byte. -/
def mqttMessageBuffer (payload : List Nat) (length : Nat) : List Nat :=
  payload.take length ++ [0]

/-- `onMQTTMessage` of the source: convert the raw payload into the
null-terminated buffer and dispatch the MESSAGE event, with topic and
converted message, to every registered callback.  There is no
connection-state check. -/
def onMQTTMessage (s : MqttState) (topic : String) (payload : List Nat)
    (length : Nat) : MqttState :=
  { s with invocations :=
      s.invocations ++ (dispatchEvent s.callbacks MqttEvent.message
        (some topic) (some (mqttMessageBuffer payload length))) }

/-- `mqttConnect` of the source: log, then request `mqtt.connect()`. -/
def mqttConnect (s : MqttState) : MqttState :=
  { s with transportCalls := s.transportCalls ++ [TransportCall.connect] }

/-- One configuration call made on the transport object during setup. -/
inductive SetupCall where
  | onConnect
  | onDisconnect
  | onMessage
  | setServer (host : String) (port : Nat)
  | setKeepAlive (keepAlive : Nat)
  | setCleanSession (clean : Bool)
  | setClientId (clientId : String)
  | setWill (topic : String) (qos : Nat) (retain : Bool) (payload : String)
  | setCredentials (user : String) (password : String)

/-- `setupMQTT` of the source: the sequence of configuration calls made
on the transport object, in program order. -/
def setupMQTT (C : Consts) (cfg : Config) : List SetupCall :=
  [SetupCall.onConnect, SetupCall.onDisconnect, SetupCall.onMessage,
   SetupCall.setServer cfg.mqtt_server cfg.mqtt_port,
   SetupCall.setKeepAlive C.mqtt_keepalive,
   SetupCall.setCleanSession false,
   SetupCall.setClientId cfg.hostname,
   SetupCall.setWill cfg.mqtt_lwt_topic 2 true C.mqtt_status_offline,
   SetupCall.setCredentials cfg.mqtt_user cfg.mqtt_password]

/-- Recognizer for `setCleanSession` calls. -/
def isSetCleanSession : SetupCall → Bool
  | SetupCall.setCleanSession _ => true
  | _ => false

/-- Recognizer for `setClientId` calls. -/
def isSetClientId : SetupCall → Bool
  | SetupCall.setClientId _ => true
  | _ => false

/-- Recognizer for `setWill` calls. -/
def isSetWill : SetupCall → Bool
  | SetupCall.setWill _ _ _ _ => true
  | _ => false

/-- Recognizer for `setCredentials` calls. -/
def isSetCredentials : SetupCall → Bool
  | SetupCall.setCredentials _ _ => true
  | _ => false

/-- Sample build-time constants, used by concrete witnesses. -/
def constsSample : Consts :=
  { mqtt_qos_level := 0, mqtt_retain := false, mqtt_keepalive := 30,
    reconnect_time := 5, mqtt_status_offline := "offline" }

/-- Sample configuration with discovery enabled and not yet announced. -/
def cfgSample : Config :=
  { hostname := "ailight", mqtt_server := "broker.local", mqtt_port := 1883,
    mqtt_user := "user", mqtt_password := "pass",
    mqtt_state_topic := "ailight/state", mqtt_command_topic := "ailight/cmd",
    mqtt_lwt_topic := "ailight/status", mqtt_ha_use_discovery := true,
    mqtt_ha_disc_pfx := "homeassistant", mqtt_ha_is_discovered := false }

/-- Sample connected state with two registered callbacks. -/
def stConn : MqttState :=
  { connected := true, cfg := cfgSample, callbacks := [10, 11],
    transportCalls := [], invocations := [], eepromWrites := 0,
    pendingReconnects := 0 }

/-- Sample state identical to `stConn` but not connected. -/
def stDisc : MqttState := { stConn with connected := false }

/-- Sample connected state whose announced flag is already set. -/
def stDone : MqttState :=
  { stConn with cfg := { cfgSample with mqtt_ha_is_discovered := true } }

/-- The `uint8_t` counter increments without wrapping while it stays
below 255. -/
theorem u8Succ_eq_of_lt {i : Nat} (h : i + 1 < 256) : u8Succ i = i + 1 :=
  Nat.mod_eq_of_lt h

/-- With a registry of size at most 255 the dispatch loop runs exactly
over the in-range indices, in increasing order. -/
theorem u8LoopIndices_eq_range' :
    ∀ (fuel i n : Nat), i ≤ n → n ≤ 255 → n - i ≤ fuel →
      u8LoopIndices fuel i n = List.range' i (n - i) := by
  intro fuel
  induction fuel with
  | zero =>
      intro i n hin h255 hf
      have h0 : n - i = 0 := Nat.le_zero.mp hf
      rw [h0]
      rfl
  | succ fuel ih =>
      intro i n hin h255 hf
      by_cases h : i < n
      · have hs : u8Succ i = i + 1 := u8Succ_eq_of_lt (by omega)
        have hrec := ih (i + 1) n (by omega) h255 (by omega)
        have hn : n - i = (n - (i + 1)) + 1 := by omega
        simp only [u8LoopIndices, if_pos h, hs, hrec, hn, List.range'_succ]
      · have h0 : n - i = 0 := by omega
        simp only [u8LoopIndices, if_neg h, h0]
        rfl

/-- For a registry of size at most 255, `dispatchIndices` is exactly
`0, 1, …, n - 1`. -/
theorem dispatchIndices_eq_range {n : Nat} (h : n ≤ 255) :
    dispatchIndices n = List.range n := by
  have hx := u8LoopIndices_eq_range' n 0 n (Nat.zero_le n) h (by omega)
  simpa [dispatchIndices, List.range_eq_range'] using hx

/-- Indexing a whole list through `range` is the same as mapping it. -/
theorem filterMap_range_getElem {α β : Type} (l : List α) (f : α → β) :
    (List.range l.length).filterMap (fun i => (l[i]?).map f) = l.map f := by
  induction l with
  | nil => rfl
  | cons a t ih =>
      have hg : ((fun i => ((a :: t)[i]?).map f) ∘ Nat.succ)
          = fun i => (t[i]?).map f := by
        funext i
        simp
      rw [List.length_cons, List.range_succ_eq_map, List.filterMap_cons]
      simp only [List.getElem?_cons_zero, Option.map_some']
      rw [List.filterMap_map, hg, ih, List.map_cons]

/-- With at most 255 registered callbacks a dispatch loop invokes every
callback exactly once, in registration order. -/
theorem dispatchEvent_eq_map (cbs : List Nat) (ev : MqttEvent)
    (topic : Option String) (msg : Option (List Nat)) (h : cbs.length ≤ 255) :
    dispatchEvent cbs ev topic msg
      = cbs.map (fun c =>
          { callback := c, event := ev, topic := topic, message := msg }) := by
  unfold dispatchEvent dispatchEventFueled
  rw [show u8LoopIndices cbs.length 0 cbs.length = dispatchIndices cbs.length from rfl,
      dispatchIndices_eq_range h, filterMap_range_getElem]

/-- `mqttPublish` never touches the invocation trace. -/
theorem mqttPublish_invocations (C : Consts) (s : MqttState) (t m : String) :
    (mqttPublish C s t m).invocations = s.invocations := by
  unfold mqttPublish
  split
  · rfl
  · split
    · rfl
    · rfl

/-- `onMQTTConnect` always appends exactly the CONNECT fan-out to the
invocation trace, before any discovery work. -/
theorem onMQTTConnect_invocations (C : Consts) (s : MqttState) (sp : Bool) :
    (onMQTTConnect C s sp).invocations
      = s.invocations ++ dispatchEvent s.callbacks MqttEvent.connect none none := by
  simp only [onMQTTConnect]
  split
  · simp [mqttPublish_invocations]
  · rfl

/-- The discovery topic is never the empty string. -/
theorem discoveryTopic_length_pos (cfg : Config) :
    0 < (discoveryTopic cfg).length := by
  have h7 : ("/config" : String).length = 7 := rfl
  simp only [discoveryTopic, String.length_append]
  omega

/-- The discovery payload is never the empty string. -/
theorem discoveryPayload_length_pos (cfg : Config) :
    0 < (discoveryPayload cfg).length := by
  have h9 : ("\x7b\"name\":\"" : String).length = 9 := rfl
  simp only [discoveryPayload, String.length_append]
  omega

/-- C1: with discovery enabled and the announced flag initially false, a
successful connect (state Connected) makes `onMQTTConnect` publish
exactly one message, to `<prefix>/light/<hostname>/config`, carrying the
fixed-field discovery JSON document, and afterwards the announced flag
is true and one persistence request has been issued. -/
theorem discovery_first_connect (C : Consts) (s : MqttState) (sp : Bool)
    (hc : s.connected = true) (hd : s.cfg.mqtt_ha_use_discovery = true)
    (hf : s.cfg.mqtt_ha_is_discovered = false) :
    (onMQTTConnect C s sp).transportCalls
        = s.transportCalls
          ++ [TransportCall.publish (discoveryTopic s.cfg) C.mqtt_qos_level
                C.mqtt_retain (discoveryPayload s.cfg)]
      ∧ (onMQTTConnect C s sp).cfg.mqtt_ha_is_discovered = true
      ∧ (onMQTTConnect C s sp).eepromWrites = s.eepromWrites + 1 := by
  have htl := discoveryTopic_length_pos s.cfg
  have hpl := discoveryPayload_length_pos s.cfg
  refine ⟨?_, ?_, ?_⟩ <;>
    simp [onMQTTConnect, mqttPublish, hc, hd, hf, htl, hpl]

/-- C1 witness: the concrete connected sample state publishes the
discovery document once and sets the flag. -/
theorem discovery_first_connect_witness :
    stConn.connected = true
      ∧ ((onMQTTConnect constsSample stConn true).transportCalls
          = stConn.transportCalls
            ++ [TransportCall.publish (discoveryTopic stConn.cfg)
                  constsSample.mqtt_qos_level constsSample.mqtt_retain
                  (discoveryPayload stConn.cfg)]
        ∧ (onMQTTConnect constsSample stConn true).cfg.mqtt_ha_is_discovered = true
        ∧ (onMQTTConnect constsSample stConn true).eepromWrites
            = stConn.eepromWrites + 1) :=
  ⟨rfl, discovery_first_connect constsSample stConn true rfl rfl rfl⟩

/-- C2: publish, subscribe and unsubscribe are silent no-ops (the state,
and in particular the transport-call trace, is unchanged) whenever the
connection state is not Connected, and likewise on an empty topic, or on
an empty message for publish. -/
theorem gateway_noop (C : Consts) (s : MqttState) (topic msg : String) (qos : Nat) :
    (s.connected = false →
        mqttPublish C s topic msg = s ∧ mqttSubscribe s topic qos = s
          ∧ mqttUnsubscribe s topic = s)
      ∧ (topic = "" →
        mqttPublish C s topic msg = s ∧ mqttSubscribe s topic qos = s
          ∧ mqttUnsubscribe s topic = s)
      ∧ (msg = "" → mqttPublish C s topic msg = s) := by
  have hz : ("" : String).length = 0 := rfl
  refine ⟨fun hc => ?_, fun ht => ?_, fun hm => ?_⟩
  · simp [mqttPublish, mqttSubscribe, mqttUnsubscribe, hc]
  · subst ht
    simp [mqttPublish, mqttSubscribe, mqttUnsubscribe, hz]
  · subst hm
    simp [mqttPublish, hz]

/-- C2 witness: concrete no-op calls while disconnected, on an empty
topic while connected, and on an empty message while connected. -/
theorem gateway_noop_witness :
    (mqttPublish constsSample stDisc "a/b" "on" = stDisc
        ∧ mqttSubscribe stDisc "a/b" 0 = stDisc
        ∧ mqttUnsubscribe stDisc "a/b" = stDisc)
      ∧ (mqttPublish constsSample stConn "" "on" = stConn
        ∧ mqttSubscribe stConn "" 0 = stConn
        ∧ mqttUnsubscribe stConn "" = stConn)
      ∧ mqttPublish constsSample stConn "a/b" "" = stConn :=
  ⟨(gateway_noop constsSample stDisc "a/b" "on" 0).1 rfl,
   (gateway_noop constsSample stConn "" "on" 0).2.1 rfl,
   (gateway_noop constsSample stConn "a/b" "" 0).2.2 rfl⟩

/-- C3: an inbound payload of length L, with arbitrary bytes including
embedded zero bytes, is converted into a null-terminated buffer whose
first L bytes are exactly the payload, and that buffer is dispatched
with the MESSAGE event to every registered callback; L = 0 is covered by
the same statement. -/
theorem payload_fidelity (s : MqttState) (t : String) (p : List Nat) (L : Nat)
    (hp : p.length = L) (hcb : s.callbacks.length ≤ 255) :
    (mqttMessageBuffer p L).take L = p
      ∧ (mqttMessageBuffer p L).length = L + 1
      ∧ (mqttMessageBuffer p L)[L]? = some 0
      ∧ (onMQTTMessage s t p L).invocations
          = s.invocations ++ s.callbacks.map
              (fun c => { callback := c, event := MqttEvent.message,
                          topic := some t,
                          message := some (mqttMessageBuffer p L) }) := by
  subst hp
  refine ⟨?_, ?_, ?_, ?_⟩
  · simp only [mqttMessageBuffer, List.take_length]
    exact List.take_left p [0]
  · simp [mqttMessageBuffer]
  · simp only [mqttMessageBuffer, List.take_length]
    rw [List.getElem?_append_right (Nat.le_refl _), Nat.sub_self]
    rfl
  · simp only [onMQTTMessage]
    rw [dispatchEvent_eq_map s.callbacks _ _ _ hcb]

/-- C3 witness: a three-byte payload with an embedded zero byte, and the
empty payload, are both converted and dispatched faithfully in the
concrete sample state. -/
theorem payload_fidelity_witness :
    ([104, 0, 105] : List Nat).length = 3
      ∧ ((mqttMessageBuffer [104, 0, 105] 3).take 3 = [104, 0, 105]
        ∧ (mqttMessageBuffer [104, 0, 105] 3).length = 3 + 1
        ∧ (mqttMessageBuffer [104, 0, 105] 3)[3]? = some 0
        ∧ (onMQTTMessage stConn "ailight/cmd" [104, 0, 105] 3).invocations
            = stConn.invocations ++ stConn.callbacks.map
                (fun c => { callback := c, event := MqttEvent.message,
                            topic := some "ailight/cmd",
                            message := some (mqttMessageBuffer [104, 0, 105] 3) })) :=
  ⟨rfl, payload_fidelity stConn "ailight/cmd" [104, 0, 105] 3 rfl (by decide)⟩

/-- C5: when the discovery publish is attempted while not Connected, the
gateway drops it (no transport call), yet the announced flag is still
set and persistence is still requested. -/
theorem discovery_flag_set_despite_drop (C : Consts) (s : MqttState) (sp : Bool)
    (hc : s.connected = false) (hd : s.cfg.mqtt_ha_use_discovery = true)
    (hf : s.cfg.mqtt_ha_is_discovered = false) :
    (onMQTTConnect C s sp).transportCalls = s.transportCalls
      ∧ (onMQTTConnect C s sp).cfg.mqtt_ha_is_discovered = true
      ∧ (onMQTTConnect C s sp).eepromWrites = s.eepromWrites + 1 := by
  refine ⟨?_, ?_, ?_⟩ <;> simp [onMQTTConnect, mqttPublish, hc, hd, hf]

/-- C5 witness: the concrete disconnected sample state records no
transport call but still flips and persists the flag. -/
theorem discovery_flag_set_despite_drop_witness :
    stDisc.connected = false
      ∧ ((onMQTTConnect constsSample stDisc true).transportCalls
            = stDisc.transportCalls
        ∧ (onMQTTConnect constsSample stDisc true).cfg.mqtt_ha_is_discovered = true
        ∧ (onMQTTConnect constsSample stDisc true).eepromWrites
            = stDisc.eepromWrites + 1) :=
  ⟨rfl, discovery_flag_set_despite_drop constsSample stDisc true rfl rfl rfl⟩

set_option maxRecDepth 40000

/-- C4 counterexample: with 256 registered callbacks the `uint8_t` loop
counter wraps past 255 back to 0 instead of reaching the exit test, so
the first callback is invoked a second time within 257 iterations and
the loop has not exited — "all N callbacks invoked exactly once" fails
at N = 256. -/
theorem fanout_wrap_at_256 :
    ((dispatchEventFueled 257 (List.range 256) MqttEvent.connect none none).countP
        (fun inv => inv.callback == 0)) = 2
      ∧ u8LoopExits 257 0 256 = false := by
  decide

/-- C4 (amended): for at most 255 registered callbacks, every dispatched
event — CONNECT, DISCONNECT and MESSAGE — invokes all registered
callbacks exactly once each, in registration order, with topic and
message null for the two connection-level events. -/
theorem fanout_in_order (C : Consts) (s : MqttState) (sp : Bool) (r : Nat)
    (t : String) (p : List Nat) (L : Nat) (hcb : s.callbacks.length ≤ 255) :
    (onMQTTConnect C s sp).invocations
        = s.invocations ++ s.callbacks.map
            (fun c => { callback := c, event := MqttEvent.connect,
                        topic := none, message := none })
      ∧ (onMQTTDisconnect C s r).invocations
          = s.invocations ++ s.callbacks.map
              (fun c => { callback := c, event := MqttEvent.disconnect,
                          topic := none, message := none })
      ∧ (onMQTTMessage s t p L).invocations
          = s.invocations ++ s.callbacks.map
              (fun c => { callback := c, event := MqttEvent.message,
                          topic := some t,
                          message := some (mqttMessageBuffer p L) }) := by
  refine ⟨?_, ?_, ?_⟩
  · rw [onMQTTConnect_invocations, dispatchEvent_eq_map s.callbacks _ _ _ hcb]
  · simp only [onMQTTDisconnect]
    rw [dispatchEvent_eq_map s.callbacks _ _ _ hcb]
  · simp only [onMQTTMessage]
    rw [dispatchEvent_eq_map s.callbacks _ _ _ hcb]

/-- C4 witness: in the concrete two-callback sample state all three
handlers fan out to both callbacks, in order. -/
theorem fanout_in_order_witness :
    stConn.callbacks.length ≤ 255
      ∧ ((onMQTTConnect constsSample stConn true).invocations
          = stConn.invocations ++ stConn.callbacks.map
              (fun c => { callback := c, event := MqttEvent.connect,
                          topic := none, message := none })
        ∧ (onMQTTDisconnect constsSample stConn 2).invocations
            = stConn.invocations ++ stConn.callbacks.map
                (fun c => { callback := c, event := MqttEvent.disconnect,
                            topic := none, message := none })
        ∧ (onMQTTMessage stConn "ailight/cmd" [1, 2] 2).invocations
            = stConn.invocations ++ stConn.callbacks.map
                (fun c => { callback := c, event := MqttEvent.message,
                            topic := some "ailight/cmd",
                            message := some (mqttMessageBuffer [1, 2] 2) })) :=
  ⟨by decide,
   fanout_in_order constsSample stConn true 2 "ailight/cmd" [1, 2] 2 (by decide)⟩

/-- C6: any nonempty run of consecutive disconnect events, with no
intervening connect, leaves exactly one pending reconnect timer — the
newly armed one-shot timer replaces the previous one, so never K
concurrent pending reconnects. -/
theorem single_pending_reconnect (C : Consts) (s : MqttState)
    (reasons : List Nat) (h : reasons ≠ []) :
    (reasons.foldl (fun st r => onMQTTDisconnect C st r) s).pendingReconnects = 1 := by
  have key : ∀ (rs : List Nat) (st : MqttState), st.pendingReconnects = 1 →
      (rs.foldl (fun a r => onMQTTDisconnect C a r) st).pendingReconnects = 1 := by
    intro rs
    induction rs with
    | nil => intro st hst; exact hst
    | cons r2 rs2 ih =>
        intro st hst
        rw [List.foldl_cons]
        exact ih _ rfl
  obtain ⟨r, rs, rfl⟩ := List.exists_cons_of_ne_nil h
  rw [List.foldl_cons]
  exact key rs _ rfl

/-- C6 witness: three rapid consecutive disconnects of the concrete
sample state leave exactly one pending reconnect, not three. -/
theorem single_pending_reconnect_witness :
    ([1, 2, 3] : List Nat) ≠ []
      ∧ (([1, 2, 3] : List Nat).foldl
          (fun st r => onMQTTDisconnect constsSample st r) stConn).pendingReconnects = 1 :=
  ⟨by decide, single_pending_reconnect constsSample stConn [1, 2, 3] (by decide)⟩

/-- C7: once the announced flag is true, or whenever discovery is
disabled, any number of further connect events produces zero additional
transport calls — in particular zero publishes to the discovery topic. -/
theorem discovery_idempotent (C : Consts) (s : MqttState) (sp : Bool) (k : Nat)
    (h : s.cfg.mqtt_ha_is_discovered = true ∨ s.cfg.mqtt_ha_use_discovery = false) :
    ((fun st => onMQTTConnect C st sp)^[k] s).transportCalls = s.transportCalls := by
  have main : ∀ (k : Nat) (st : MqttState),
      st.cfg.mqtt_ha_is_discovered = true ∨ st.cfg.mqtt_ha_use_discovery = false →
      ((fun x => onMQTTConnect C x sp)^[k] st).transportCalls = st.transportCalls := by
    intro k
    induction k with
    | zero => intro st hst; rfl
    | succ k ih =>
        intro st hst
        have hstep : onMQTTConnect C st sp
            = { st with invocations :=
                  st.invocations
                    ++ dispatchEvent st.callbacks MqttEvent.connect none none } := by
          simp only [onMQTTConnect]
          rcases hst with hst | hst <;> simp [hst]
        rw [Function.iterate_succ_apply, hstep]
        exact ih _ (by simpa using hst)
  exact main k s h

/-- C7 witness: two further connects of the already-announced concrete
sample state add no transport calls. -/
theorem discovery_idempotent_witness :
    (stDone.cfg.mqtt_ha_is_discovered = true
        ∨ stDone.cfg.mqtt_ha_use_discovery = false)
      ∧ ((fun st => onMQTTConnect constsSample st true)^[2] stDone).transportCalls
          = stDone.transportCalls :=
  ⟨Or.inl rfl, discovery_idempotent constsSample stDone true 2 (Or.inl rfl)⟩

/-- C8: setup configures the transport with clean-session false, client
identifier equal to the device hostname, the configured credentials, and
a last-will at QoS 2, retained, with the fixed offline payload on topic
`mqtt_lwt_topic` — and each of these configuration calls is made exactly
once (the filtered call trace is a singleton). -/
theorem setup_configures_transport (C : Consts) (cfg : Config) :
    (setupMQTT C cfg).filter isSetCleanSession = [SetupCall.setCleanSession false]
      ∧ (setupMQTT C cfg).filter isSetClientId = [SetupCall.setClientId cfg.hostname]
      ∧ (setupMQTT C cfg).filter isSetWill
          = [SetupCall.setWill cfg.mqtt_lwt_topic 2 true C.mqtt_status_offline]
      ∧ (setupMQTT C cfg).filter isSetCredentials
          = [SetupCall.setCredentials cfg.mqtt_user cfg.mqtt_password] :=
  ⟨rfl, rfl, rfl, rfl⟩

/-- C9: the `uint8_t`-indexed dispatch loop reaches its exit test and
visits exactly the indices 0 … n-1 when at most 255 callbacks are
registered; with 256 or more the counter wraps, the exit test never
succeeds, and the loop keeps running for as many iterations as it is
given fuel. -/
theorem u8_dispatch_loop (n : Nat) :
    (n ≤ 255 → u8LoopExits (n + 1) 0 n = true ∧ dispatchIndices n = List.range n)
      ∧ (256 ≤ n → ∀ fuel, u8LoopExits fuel 0 n = false
          ∧ (u8LoopIndices fuel 0 n).length = fuel) := by
  have hexit : ∀ (fuel i m : Nat), i ≤ m → m ≤ 255 → m - i < fuel →
      u8LoopExits fuel i m = true := by
    intro fuel
    induction fuel with
    | zero => intro i m him h255 hf; omega
    | succ fuel ih =>
        intro i m him h255 hf
        by_cases h : i < m
        · have hs : u8Succ i = i + 1 := u8Succ_eq_of_lt (by omega)
          simp only [u8LoopExits, if_pos h, hs]
          exact ih (i + 1) m (by omega) h255 (by omega)
        · simp only [u8LoopExits, if_neg h]
  have hwrap : ∀ (fuel i m : Nat), 256 ≤ m → i < 256 →
      u8LoopExits fuel i m = false ∧ (u8LoopIndices fuel i m).length = fuel := by
    intro fuel
    induction fuel with
    | zero => intro i m hm hi; exact ⟨rfl, rfl⟩
    | succ fuel ih =>
        intro i m hm hi
        have h : i < m := by omega
        have hnext : u8Succ i < 256 := Nat.mod_lt _ (by omega)
        have hrec := ih (u8Succ i) m hm hnext
        constructor
        · simp only [u8LoopExits, if_pos h]
          exact hrec.1
        · simp only [u8LoopIndices, if_pos h, List.length_cons, hrec.2]
  constructor
  · intro h255
    exact ⟨hexit (n + 1) 0 n (Nat.zero_le n) h255 (by omega),
           dispatchIndices_eq_range h255⟩
  · intro h256 fuel
    exact hwrap fuel 0 n h256 (by omega)

/-- C9 witness: the loop over 3 callbacks exits and visits 0, 1, 2; the
loop over 256 callbacks has not exited after 10 iterations and has run
all 10 of them. -/
theorem u8_dispatch_loop_witness :
    (u8LoopExits 4 0 3 = true ∧ dispatchIndices 3 = List.range 3)
      ∧ (u8LoopExits 10 0 256 = false ∧ (u8LoopIndices 10 0 256).length = 10) :=
  ⟨(u8_dispatch_loop 3).1 (by decide), (u8_dispatch_loop 256).2 (by decide) 10⟩

/-- C10: `onMQTTMessage` performs no connection-state check — for either
value of the connected flag it dispatches the MESSAGE event to all
registered callbacks and makes no transport call. -/
theorem message_dispatch_unguarded (s : MqttState) (b : Bool) (t : String)
    (p : List Nat) (L : Nat) (hcb : s.callbacks.length ≤ 255) :
    (onMQTTMessage { s with connected := b } t p L).invocations
        = s.invocations ++ s.callbacks.map
            (fun c => { callback := c, event := MqttEvent.message,
                        topic := some t,
                        message := some (mqttMessageBuffer p L) })
      ∧ (onMQTTMessage { s with connected := b } t p L).transportCalls
          = s.transportCalls := by
  constructor
  · simp only [onMQTTMessage]
    rw [show ({ s with connected := b } : MqttState).callbacks = s.callbacks from rfl]
    rw [dispatchEvent_eq_map s.callbacks _ _ _ hcb]
  · rfl

/-- C10 witness: the disconnected concrete sample state still fans the
MESSAGE event out to both callbacks and issues no transport call. -/
theorem message_dispatch_unguarded_witness :
    stConn.callbacks.length ≤ 255
      ∧ ((onMQTTMessage { stConn with connected := false } "ailight/cmd" [1] 1).invocations
          = stConn.invocations ++ stConn.callbacks.map
              (fun c => { callback := c, event := MqttEvent.message,
                          topic := some "ailight/cmd",
                          message := some (mqttMessageBuffer [1] 1) })
        ∧ (onMQTTMessage { stConn with connected := false } "ailight/cmd" [1] 1).transportCalls
            = stConn.transportCalls) :=
  ⟨by decide,
   message_dispatch_unguarded stConn false "ailight/cmd" [1] 1 (by decide)⟩

end AiLight
